import Mathlib

/-!
Shallow embedding of the asconnect build-submission pipeline
(src/asconnect/src/lib.rs and src/asconnect/src/altool.rs).

Modelling conventions:
- machine integers are Nat with explicit reduction mod 2 ^ 32 where the
  Rust code relies on 32-bit wraparound (the MD5 digest);
- byte sequences are List Nat (each element a byte value);
- JSON documents built by the json! macro are a Json inductive whose
  object fields appear in the order the Rust source writes them;
- the blocking HTTP client is a transport oracle, a pure function from
  the built request to the result of Client::execute; the requests a
  function issues are collected in order as an explicit trace;
- fallible Rust functions returning anyhow::Result are embedded as
  Except Err, with one Err constructor per distinct failure source;
- a reached unwrap on None (a panic) is the dedicated PanicOr.panicked
  value, distinct from every Except error.
-/

/-- JSON value, as built by the serde_json json! macro and as decoded by
the serde Deserialize implementations used in altool.rs. -/
inductive Json where
  | str (s : String)
  | num (n : Nat)
  | bool (b : Bool)
  | arr (elems : List Json)
  | obj (fields : List (String × Json))

/-- HTTP method of the requests altool.rs builds: Client::post,
Client::put and Client::patch are the only constructors used. -/
inductive Method where
  | post
  | put
  | patch

/-- Body of an outgoing request: RequestBuilder::json attaches a JSON
document, RequestBuilder::body attaches raw bytes (the chunk uploads). -/
inductive ReqBody where
  | jsonBody (j : Json)
  | bytesBody (bs : List Nat)

/-- A built HTTP request: method, url, headers in the order the builder
sets them, and the body. -/
structure Request where
  method : Method
  url : String
  headers : List (String × String)
  body : ReqBody

/-- Body of a response as the transport hands it back: either bytes that
parse as a JSON document (serde_json succeeds on them) or raw bytes that
do not. -/
inductive RespBody where
  | jsonB (j : Json)
  | rawB (bs : List Nat)

/-- An HTTP response: numeric status code and body. -/
structure Response where
  status : Nat
  body : RespBody

/-- A connection-level failure of Client::execute (reqwest::Error). -/
structure ConnError where
  message : String

/-- Failure of AppStoreConnectClient::send_request: either the execute
call itself failed, or the status was not a success; in the latter case
the error surfaces the response body for diagnosis (lib.rs logs the body
pretty-printed when it parses as JSON, else as a lossy string, before
bailing with the message "app store connect error"). -/
inductive SendError where
  | connection (e : ConnError)
  | appStoreConnectError (status : Nat) (body : RespBody)

/-- reqwest StatusCode::is_success: 2xx. -/
def is_success (status : Nat) : Bool :=
  decide (200 ≤ status) && decide (status < 300)

/-- lib.rs lines 179 to 204: execute the request; return the response when
the status is a success, otherwise surface the response body in a
structured error and bail. The argument is the result of Client::execute
on the built request. -/
def send_request (executed : Except ConnError Response) : Except SendError Response :=
  match executed with
  | .error e => .error (.connection e)
  | .ok resp =>
      if is_success resp.status then .ok resp
      else .error (.appStoreConnectError resp.status resp.body)

/-- The failure domain of the altool.rs pipeline functions: a
send_request failure, a serde decode failure of a response body, the
context("failed to find app") error of upload, or an extraction error
from extract_app_data. -/
inductive ExtractErr where
  | io
  | archive
  | plistParse
  | invalidPlist

inductive Err where
  | send (e : SendError)
  | decode
  | appNotFound
  | extract (e : ExtractErr)

/-- The HTTP transport as an oracle: what Client::execute returns for
each built request. -/
def Transport : Type := Request → Except ConnError Response

/-- self.send_request(req) as the pipeline calls it: execute through the
transport and check the status. -/
def do_send (tr : Transport) (req : Request) : Except Err Response :=
  match send_request (tr req) with
  | .ok resp => .ok resp
  | .error e => .error (.send e)

/-- Boolean success of one sent request under a fixed transport. -/
def reqOk (tr : Transport) (req : Request) : Bool :=
  match do_send tr req with
  | .ok _ => true
  | .error _ => false

/-! The token cache, lib.rs lines 168 to 177. The Mutex-guarded
Option<AppStoreConnectToken> field is the explicit cache argument; the
signing collaborator ConnectTokenEncoder::new_token (module api_token,
outside altool.rs and lib.rs) is an oracle argument. The outcome records
the returned value, the cache contents after the call, and the list of
validity-window arguments passed to new_token during the call. -/

structure TokenCall where
  result : Except String String
  cache : Option String
  minted : List Nat

/-- lib.rs get_token: under the lock, if the cache is empty mint a token
with a 300 second validity and store it, propagating a minting error;
then return the cached token. -/
def get_token (new_token : Nat → Except String String) (cache : Option String) : TokenCall :=
  match cache with
  | some t => ⟨.ok t, some t, []⟩
  | none =>
      match new_token 300 with
      | .ok t => ⟨.ok t, some t, [300]⟩
      | .error e => ⟨.error e, none, [300]⟩

/-! The MD5 digest, as computed by md5::compute on the whole file
contents (altool.rs line 73) and rendered lowercase-hex by the LowerHex
formatting of md5::Digest (line 74). This is the reference MD5 algorithm
(RFC 1321) over byte lists, with 32-bit words as Nat reduced mod 2 ^ 32. -/

def M32 : Nat := 4294967296

/-- Bitwise complement within 32 bits. -/
def not32 (x : Nat) : Nat := x ^^^ 4294967295

/-- Left rotation of a 32-bit word. -/
def rotl32 (x n : Nat) : Nat := ((x <<< n) ||| (x >>> (32 - n))) % M32

/-- The 64 MD5 sine constants of RFC 1321. -/
def md5K : List Nat :=
  [0xd76aa478, 0xe8c7b756, 0x242070db, 0xc1bdceee,
   0xf57c0faf, 0x4787c62a, 0xa8304613, 0xfd469501,
   0x698098d8, 0x8b44f7af, 0xffff5bb1, 0x895cd7be,
   0x6b901122, 0xfd987193, 0xa679438e, 0x49b40821,
   0xf61e2562, 0xc040b340, 0x265e5a51, 0xe9b6c7aa,
   0xd62f105d, 0x02441453, 0xd8a1e681, 0xe7d3fbc8,
   0x21e1cde6, 0xc33707d6, 0xf4d50d87, 0x455a14ed,
   0xa9e3e905, 0xfcefa3f8, 0x676f02d9, 0x8d2a4c8a,
   0xfffa3942, 0x8771f681, 0x6d9d6122, 0xfde5380c,
   0xa4beea44, 0x4bdecfa9, 0xf6bb4b60, 0xbebfbc70,
   0x289b7ec6, 0xeaa127fa, 0xd4ef3085, 0x04881d05,
   0xd9d4d039, 0xe6db99e5, 0x1fa27cf8, 0xc4ac5665,
   0xf4292244, 0x432aff97, 0xab9423a7, 0xfc93a039,
   0x655b59c3, 0x8f0ccc92, 0xffeff47d, 0x85845dd1,
   0x6fa87e4f, 0xfe2ce6e0, 0xa3014314, 0x4e0811a1,
   0xf7537e82, 0xbd3af235, 0x2ad7d2bb, 0xeb86d391]

/-- The 64 per-round left-rotation amounts of RFC 1321. -/
def md5S : List Nat :=
  [7, 12, 17, 22, 7, 12, 17, 22, 7, 12, 17, 22, 7, 12, 17, 22,
   5, 9, 14, 20, 5, 9, 14, 20, 5, 9, 14, 20, 5, 9, 14, 20,
   4, 11, 16, 23, 4, 11, 16, 23, 4, 11, 16, 23, 4, 11, 16, 23,
   6, 10, 15, 21, 6, 10, 15, 21, 6, 10, 15, 21, 6, 10, 15, 21]

/-- The running 128-bit MD5 state as four 32-bit words. -/
structure MD5State where
  a : Nat
  b : Nat
  c : Nat
  d : Nat

/-- One of the 64 MD5 rounds, over the 16 message words of the current
block. -/
def md5Step (msg : List Nat) (st : MD5State) (i : Nat) : MD5State :=
  let fg : Nat × Nat :=
    if i < 16 then ((st.b &&& st.c) ||| (not32 st.b &&& st.d), i)
    else if i < 32 then ((st.d &&& st.b) ||| (not32 st.d &&& st.c), (5 * i + 1) % 16)
    else if i < 48 then (st.b ^^^ st.c ^^^ st.d, (3 * i + 5) % 16)
    else (st.c ^^^ (st.b ||| not32 st.d), (7 * i) % 16)
  let f := (fg.1 + st.a + md5K.getD i 0 + msg.getD fg.2 0) % M32
  ⟨st.d, (st.b + rotl32 f (md5S.getD i 0)) % M32, st.b, st.c⟩

/-- The first four bytes of the list read as a little-endian 32-bit word. -/
def leWord (bs : List Nat) : Nat :=
  match bs with
  | b0 :: b1 :: b2 :: b3 :: _ => b0 + 256 * b1 + 65536 * b2 + 16777216 * b3
  | [b0, b1, b2] => b0 + 256 * b1 + 65536 * b2
  | [b0, b1] => b0 + 256 * b1
  | [b0] => b0
  | [] => 0

/-- A 32-bit word as four little-endian bytes. -/
def toLE4 (w : Nat) : List Nat :=
  [w % 256, w / 256 % 256, w / 65536 % 256, w / 16777216 % 256]

/-- A 64-bit word as eight little-endian bytes. -/
def toLE8 (w : Nat) : List Nat :=
  [w % 256, w / 256 % 256, w / 65536 % 256, w / 16777216 % 256,
   w / 4294967296 % 256, w / 1099511627776 % 256,
   w / 281474976710656 % 256, w / 72057594037927936 % 256]

/-- One 64-byte block digested into the running state: 64 rounds, then
the wrapping addition of the previous state. -/
def md5Block (st : MD5State) (block : List Nat) : MD5State :=
  let msg := (List.range 16).map fun j => leWord (block.drop (4 * j))
  let r := (List.range 64).foldl (md5Step msg) st
  ⟨(st.a + r.a) % M32, (st.b + r.b) % M32, (st.c + r.c) % M32, (st.d + r.d) % M32⟩

/-- RFC 1321 padding: a 0x80 byte, zeros up to 56 mod 64, then the bit
length as a little-endian 64-bit word. -/
def md5Pad (data : List Nat) : List Nat :=
  data ++ 0x80 :: List.replicate ((120 - (data.length + 1) % 64) % 64) 0
    ++ toLE8 (8 * data.length)

/-- The 16-byte MD5 digest of a byte list. -/
def md5Bytes (data : List Nat) : List Nat :=
  let padded := md5Pad data
  let blocks := (List.range (padded.length / 64)).map
    fun i => (padded.drop (64 * i)).take 64
  let fin := blocks.foldl md5Block ⟨0x67452301, 0xefcdab89, 0x98badcfe, 0x10325476⟩
  toLE4 fin.a ++ toLE4 fin.b ++ toLE4 fin.c ++ toLE4 fin.d

/-- The sixteen lowercase hexadecimal digit characters. -/
def hexChars : List Char := "0123456789abcdef".toList

/-- One hexadecimal digit character, lowercase. -/
def hexDigit (n : Nat) : Char := hexChars.getD (n % 16) '0'

/-- One byte as two lowercase hexadecimal digit characters. -/
def hexByte (b : Nat) : List Char := [hexDigit (b / 16), hexDigit b]

/-- Lowercase hex rendering of a byte list, two digits per byte: the
LowerHex formatting that format with the x specifier applies to an
md5::Digest. -/
def bytesToHex (bs : List Nat) : String := String.mk (bs.flatMap hexByte)

/-- The lowercase hex MD5 digest of a byte list, as altool.rs line 74
computes it into file_checksum. -/
def md5Hex (data : List Nat) : String := bytesToHex (md5Bytes data)

/-! JSON field access, mirroring the serde derive decoders of altool.rs
(field lookup by the serde-renamed name, with type checks). -/

/-- Field lookup in a JSON object; none on any other JSON shape. -/
def Json.get? (j : Json) (k : String) : Option Json :=
  match j with
  | .obj fields => fields.lookup k
  | _ => none

/-- The value when it is a JSON string. -/
def Json.asStr? : Json → Option String
  | .str s => some s
  | _ => none

/-- The value when it is a JSON number (the u64 fields of altool.rs). -/
def Json.asNat? : Json → Option Nat
  | .num n => some n
  | _ => none

/-- The value when it is a JSON array. -/
def Json.asArr? : Json → Option (List Json)
  | .arr elems => some elems
  | _ => none

/-! URL constants of altool.rs lines 10 to 12. -/

def DOMAIN : String := "https://contentdelivery.itunes.apple.com"

def JSON_RPC : String := "/WebObjects/MZLabelService.woa/json"

def IRIS : String := "/MZContentDeliveryService/iris/v1"

/-- The headers every JSON call of altool.rs sets, in builder order:
bearer_auth, then Accept, then Content-Type. -/
def std_headers (token : String) : List (String × String) :=
  [("Authorization", "Bearer " ++ token),
   ("Accept", "application/json"),
   ("Content-Type", "application/json")]

/-! lookup_software_for_bundle_id, altool.rs lines 15 to 34. -/

/-- One candidate attribute record of the lookup response (struct
Attribute, serde rename AppleID, PascalCase Type and SoftwareTypeEnum). -/
structure Attribute where
  apple_id : String
  kind : String
  software_type_enum : String

/-- The filter of upload, altool.rs line 141: kind exactly "iOS App" and
software type exactly "Purple". The Rust field named type (raw
identifier) is the kind field here. -/
def attribute_matches (a : Attribute) : Bool :=
  a.kind == "iOS App" && a.software_type_enum == "Purple"

/-- The JSON-RPC body of the lookup call, altool.rs lines 17 to 24. -/
def lookup_body (bundle_id : String) : Json :=
  .obj [("id", .str "0"),
        ("jsonrpc", .str "2.0"),
        ("method", .str "lookupSoftwareForBundleId"),
        ("params", .obj [("BundleId", .str bundle_id)])]

/-- The POST request the lookup call builds, altool.rs lines 25 to 31. -/
def lookup_request (token bundle_id : String) : Request :=
  ⟨.post, DOMAIN ++ JSON_RPC ++ "/MZITunesSoftwareService",
   std_headers token, .jsonBody (lookup_body bundle_id)⟩

/-- serde decode of one Attribute record. -/
def decode_attribute (j : Json) : Option Attribute := do
  let a ← (← j.get? "AppleID").asStr?
  let t ← (← j.get? "Type").asStr?
  let s ← (← j.get? "SoftwareTypeEnum").asStr?
  pure ⟨a, t, s⟩

/-- serde decode of JsonRpcResult of Attributes: result.attributes as a
list of Attribute records. -/
def decode_attributes (j : Json) : Option (List Attribute) := do
  let r ← j.get? "result"
  let arr ← (← r.get? "attributes").asArr?
  arr.mapM decode_attribute

/-- Outcome of the lookup call: send the request, then decode the JSON
body (altool.rs line 32); a body that does not parse or decode is a
decode error. -/
def lookup_result (tr : Transport) (token bundle_id : String) :
    Except Err (List Attribute) :=
  match do_send tr (lookup_request token bundle_id) with
  | .error e => .error e
  | .ok resp =>
      match resp.body with
      | .jsonB j =>
          match decode_attributes j with
          | some attrs => .ok attrs
          | none => .error .decode
      | .rawB _ => .error .decode

/-- lookup_software_for_bundle_id: the single request it issues and its
outcome. -/
def lookup_software_for_bundle_id (tr : Transport) (token bundle_id : String) :
    List Request × Except Err (List Attribute) :=
  ([lookup_request token bundle_id], lookup_result tr token bundle_id)

/-! create_build, altool.rs lines 36 to 65. -/

/-- The JSON body of the build creation call, altool.rs lines 38 to 55. -/
def build_body (id version short_version_string : String) : Json :=
  .obj [("data", .obj [
    ("attributes", .obj [
      ("cfBundleShortVersionString", .str short_version_string),
      ("cfBundleVersion", .str version),
      ("platform", .str "IOS")]),
    ("relationships", .obj [
      ("app", .obj [
        ("data", .obj [("id", .str id), ("type", .str "apps")])])]),
    ("type", .str "builds")])]

/-- The POST request of create_build, altool.rs lines 56 to 62. -/
def build_request (token id version short_version_string : String) : Request :=
  ⟨.post, DOMAIN ++ IRIS ++ "/builds",
   std_headers token, .jsonBody (build_body id version short_version_string)⟩

/-- serde decode of CreateBuildResponse: data.id. -/
def decode_build (j : Json) : Option String := do
  (← (← j.get? "data").get? "id").asStr?

/-- Outcome of create_build: the backend assigned build id from the
response envelope. -/
def create_build_result (tr : Transport) (token id version short_version_string : String) :
    Except Err String :=
  match do_send tr (build_request token id version short_version_string) with
  | .error e => .error e
  | .ok resp =>
      match resp.body with
      | .jsonB j =>
          match decode_build j with
          | some build_id => .ok build_id
          | none => .error .decode
      | .rawB _ => .error .decode

/-- create_build: the single request it issues and its outcome. -/
def create_build (tr : Transport) (token id version short_version_string : String) :
    List Request × Except Err String :=
  ([build_request token id version short_version_string],
   create_build_result tr token id version short_version_string)

/-! create_upload, altool.rs lines 67 to 134. The file contents read at
line 72 are the data argument; the file size of line 70 is its length
(the metadata length of a regular file equals the byte count read). The
token of line 76 is the token argument, and the file name of line 68 is
handled at the upload entry point together with its unwraps. -/

/-- One server-assigned upload operation (struct UploadOperation). -/
structure UploadOperation where
  offset : Nat
  length : Nat
  url : String

/-- serde decode of one UploadOperation. -/
def decode_upload_operation (j : Json) : Option UploadOperation := do
  let o ← (← j.get? "offset").asNat?
  let l ← (← j.get? "length").asNat?
  let u ← (← j.get? "url").asStr?
  pure ⟨o, l, u⟩

/-- serde decode of CreateBuildDeliveryResponse: data.id and
data.attributes.uploadOperations. -/
def decode_delivery (j : Json) : Option (String × List UploadOperation) := do
  let data ← j.get? "data"
  let id ← (← data.get? "id").asStr?
  let attrsJ ← data.get? "attributes"
  let opsJ ← (← attrsJ.get? "uploadOperations").asArr?
  let ops ← opsJ.mapM decode_upload_operation
  pure (id, ops)

/-- The delivery response decoded out of a response, none when the body
is not JSON or does not decode. -/
def delivery_decode (resp : Response) : Option (String × List UploadOperation) :=
  match resp.body with
  | .jsonB j => decode_delivery j
  | .rawB _ => none

/-- The JSON body of the delivery-file creation call, altool.rs lines
77 to 96: fixed assetType and uti, the file name, the byte length of the
file, the lowercase hex MD5 of the whole contents, and the build
relationship. -/
def delivery_body (build_id file_name : String) (data : List Nat) : Json :=
  .obj [("data", .obj [
    ("attributes", .obj [
      ("assetType", .str "ASSET_DESCRIPTION"),
      ("fileName", .str file_name),
      ("fileSize", .num data.length),
      ("sourceFileChecksum", .str (md5Hex data)),
      ("uti", .str "public.binary")]),
    ("relationships", .obj [
      ("build", .obj [
        ("data", .obj [("id", .str build_id), ("type", .str "builds")])])]),
    ("type", .str "buildDeliveryFiles")])]

/-- The POST request of the delivery-file creation, altool.rs lines
97 to 103. -/
def delivery_request (token build_id file_name : String) (data : List Nat) : Request :=
  ⟨.post, DOMAIN ++ IRIS ++ "/buildDeliveryFiles",
   std_headers token, .jsonBody (delivery_body build_id file_name data)⟩

/-- The bytes one chunk transfer reads, altool.rs lines 109 to 111: seek
to offset, then take(length).read_to_end, which yields the bytes from
offset truncated at the end of the file, with no short-read check. -/
def chunk_bytes (data : List Nat) (op : UploadOperation) : List Nat :=
  (data.drop op.offset).take op.length

/-- The raw PUT request of one chunk transfer, altool.rs line 112: the
destination URL of the operation, no headers, the read bytes as body. -/
def chunk_request (data : List Nat) (op : UploadOperation) : Request :=
  ⟨.put, op.url, [], .bytesBody (chunk_bytes data op)⟩

/-- The chunk transfer loop, altool.rs lines 108 to 114: for each
operation in the order received, PUT the read bytes to its URL through
send_request, stopping at the first failure. -/
def upload_chunks (tr : Transport) (data : List Nat) :
    List UploadOperation → List Request × Except Err Unit
  | [] => ([], .ok ())
  | op :: rest =>
      let req := chunk_request data op
      match do_send tr req with
      | .error e => ([req], .error e)
      | .ok _ =>
          let r := upload_chunks tr data rest
          (req :: r.1, r.2)

/-- The JSON body of the finalize call, altool.rs lines 116 to 124:
uploaded true, addressed by the delivery-file id. -/
def finalize_body (id : String) : Json :=
  .obj [("data", .obj [
    ("attributes", .obj [("uploaded", .bool true)]),
    ("id", .str id),
    ("type", .str "buildDeliveryFiles")])]

/-- The PATCH request of the finalize call, altool.rs lines 125 to 131. -/
def finalize_request (token id : String) : Request :=
  ⟨.patch, DOMAIN ++ IRIS ++ "/buildDeliveryFiles",
   std_headers token, .jsonBody (finalize_body id)⟩

/-- create_upload, altool.rs lines 67 to 134: create the delivery file,
decode its id and upload operations, transfer every chunk in order, then
finalize; every failure propagates at once. Returns the issued requests
in order together with the outcome. -/
def create_upload (tr : Transport) (token build_id file_name : String) (data : List Nat) :
    List Request × Except Err Unit :=
  let req0 := delivery_request token build_id file_name data
  match do_send tr req0 with
  | .error e => ([req0], .error e)
  | .ok resp =>
      match delivery_decode resp with
      | none => ([req0], .error .decode)
      | some (id, operations) =>
          let chunks := upload_chunks tr data operations
          match chunks.2 with
          | .error e => (req0 :: chunks.1, .error e)
          | .ok _ =>
              let reqF := finalize_request token id
              match do_send tr reqF with
              | .error e => (req0 :: chunks.1 ++ [reqF], .error e)
              | .ok _ => (req0 :: chunks.1 ++ [reqF], .ok ())

/-! extract_app_data, altool.rs lines 213 to 235, and the path handling
of the public upload entry point. -/

/-- An XML property list value, as plist::Value is used by
extract_app_data: a string, a dictionary, or any other shape (for which
both as_string and as_dictionary return None). -/
inductive Plist where
  | string (s : String)
  | dict (entries : List (String × Plist))
  | other

/-- The three extracted strings (struct AppData). -/
structure AppData where
  cf_bundle_identifier : String
  cf_bundle_version : String
  cf_bundle_short_version_string : String

/-- The archive member path derived from the package base name,
altool.rs line 216. -/
def plist_path (stem : String) : String :=
  "Payload/" ++ stem ++ ".app/Info.plist"

/-- The helper get_string of altool.rs lines 219 to 226: the value under
the key must exist and be a string, else context("invalid Info.plist"). -/
def get_string (dict : List (String × Plist)) (key : String) : Except ExtractErr String :=
  match dict.lookup key with
  | none => .error .invalidPlist
  | some (.string s) => .ok s
  | some _ => .error .invalidPlist

/-- extract_app_data after the path unwraps: open the archive, locate
the property list at the derived path and parse it (the archive oracle
covers File::open, ZipArchive::new, by_name and from_reader_xml, whose
failures it reports as errors), require a dictionary, then read the
three required string keys. -/
def extract_app_data (archive : String → Except ExtractErr Plist) (stem : String) :
    Except ExtractErr AppData :=
  match archive (plist_path stem) with
  | .error e => .error e
  | .ok (.dict d) => do
      let cf_bundle_identifier ← get_string d "CFBundleIdentifier"
      let cf_bundle_version ← get_string d "CFBundleVersion"
      let cf_bundle_short_version_string ← get_string d "CFBundleShortVersionString"
      .ok ⟨cf_bundle_identifier, cf_bundle_version, cf_bundle_short_version_string⟩
  | .ok _ => .error .invalidPlist

/-- The OsStr returned by Path::file_stem or Path::file_name: to_str is
its UTF-8 reading, none when the name is not valid UTF-8. -/
structure OsStrM where
  to_str : Option String

/-- The std::path::Path surface altool.rs touches: file_stem and
file_name are the optional final component (none for a root path or a
path ending in a parent-directory component). -/
structure PathM where
  file_stem : Option OsStrM
  file_name : Option OsStrM

/-- A computation that either panicked (a reached unwrap on None) or
produced a value. -/
inductive PanicOr (α : Type) where
  | panicked
  | ok (a : α)

/-- The first statement of extract_app_data, altool.rs line 214:
path.file_stem().unwrap().to_str().unwrap(), panicking on either None. -/
def path_stem (p : PathM) : PanicOr String :=
  match p.file_stem with
  | none => .panicked
  | some os =>
      match os.to_str with
      | none => .panicked
      | some stem => .ok stem

/-- The first statement of create_upload, altool.rs line 68:
path.file_name().unwrap().to_str().unwrap(), panicking on either None. -/
def path_name (p : PathM) : PanicOr String :=
  match p.file_name with
  | none => .panicked
  | some os =>
      match os.to_str with
      | none => .panicked
      | some file_name => .ok file_name

/-- The public upload entry point, altool.rs lines 136 to 151: extract
the package metadata (panicking inside extract_app_data on a bad path),
look the bundle id up, select the first candidate whose kind is
"iOS App" and software type "Purple" (context "failed to find app" when
none matches), create the build, then create the upload (whose first
statement unwraps the file name). Returns the issued requests in order
and the outcome, or the panic. -/
def upload (p : PathM) (archive : String → Except ExtractErr Plist)
    (tr : Transport) (token : String) (data : List Nat) :
    PanicOr (List Request × Except Err Unit) :=
  match path_stem p with
  | .panicked => .panicked
  | .ok stem =>
      match extract_app_data archive stem with
      | .error e => .ok ([], .error (.extract e))
      | .ok app_data =>
          let lk := lookup_software_for_bundle_id tr token app_data.cf_bundle_identifier
          match lk.2 with
          | .error e => .ok (lk.1, .error e)
          | .ok attributes =>
              match attributes.find? attribute_matches with
              | none => .ok (lk.1, .error .appNotFound)
              | some found =>
                  let cb := create_build tr token found.apple_id
                    app_data.cf_bundle_version app_data.cf_bundle_short_version_string
                  match cb.2 with
                  | .error e => .ok (lk.1 ++ cb.1, .error e)
                  | .ok build_id =>
                      match path_name p with
                      | .panicked => .panicked
                      | .ok file_name =>
                          let cu := create_upload tr token build_id file_name data
                          .ok (lk.1 ++ cb.1 ++ cu.1, cu.2)

/-! Claim theorems. -/

/-! Concrete inputs used by the witness theorems below: transports,
archives, paths and responses on which the pipeline definitions are
evaluated. -/

/-- A signer that always succeeds with a fixed token value. -/
def sign_const : Nat → Except String String := fun _ => .ok "token-1"

/-- A signer that always fails. -/
def sign_bad : Nat → Except String String := fun _ => .error "bad key"

/-- A concrete Info.plist dictionary with the three required keys. -/
def demo_dict : List (String × Plist) :=
  [("CFBundleIdentifier", .string "com.example.demo"),
   ("CFBundleVersion", .string "42"),
   ("CFBundleShortVersionString", .string "2.1")]

/-- A concrete package archive oracle: the Demo.ipa payload holds the
demo property list at the derived member path. -/
def arch_demo : String → Except ExtractErr Plist := fun name =>
  if name = plist_path "Demo" then .ok (.dict demo_dict) else .error .archive

/-- A concrete lookup response: a non-matching Mac App candidate first,
then the matching iOS App and Purple candidate with id 555. -/
def attrs_json : Json :=
  .obj [("result", .obj [("attributes", .arr [
    .obj [("AppleID", .str "777"), ("Type", .str "Mac App"),
      ("SoftwareTypeEnum", .str "Purple")],
    .obj [("AppleID", .str "555"), ("Type", .str "iOS App"),
      ("SoftwareTypeEnum", .str "Purple")]])])]

/-- A concrete build-creation response with the canned build id. -/
def build_resp_json : Json :=
  .obj [("data", .obj [("id", .str "998877")])]

/-- A concrete transport: the JSON-RPC lookup URL answers with the
candidate list, every other POST with the canned build response, and
PUT and PATCH succeed with empty bodies. -/
def tr_demo : Transport := fun req =>
  match req.method with
  | .post =>
      if req.url = DOMAIN ++ JSON_RPC ++ "/MZITunesSoftwareService"
      then .ok ⟨200, .jsonB attrs_json⟩
      else .ok ⟨200, .jsonB build_resp_json⟩
  | .put => .ok ⟨200, .rawB []⟩
  | .patch => .ok ⟨200, .rawB []⟩

/-- A concrete well-formed package path, Demo.ipa. -/
def p_demo : PathM := ⟨some ⟨some "Demo"⟩, some ⟨some "Demo.ipa"⟩⟩

/-- The candidate list the concrete lookup response decodes to. -/
def attrs_demo : List Attribute :=
  [⟨"777", "Mac App", "Purple"⟩, ⟨"555", "iOS App", "Purple"⟩]

/-- A path with no final component, as for a filesystem root. -/
def p_root : PathM := ⟨none, none⟩

/-- A path whose stem is valid UTF-8 but whose full file name is not
(the non-UTF-8 bytes sit in the extension). -/
def p_bad_name : PathM := ⟨some ⟨some "Demo"⟩, some ⟨none⟩⟩

/-- A concrete delivery-file creation response: id D1 and two upload
operations covering a five byte file. -/
def delivery_json : Json :=
  .obj [("data", .obj [
    ("attributes", .obj [("uploadOperations", .arr [
      .obj [("offset", .num 0), ("length", .num 3), ("url", .str "https://s3/u1")],
      .obj [("offset", .num 3), ("length", .num 2), ("url", .str "https://s3/u2")]])]),
    ("id", .str "D1")])]

/-- The decoded operations of the concrete delivery response. -/
def ops_demo : List UploadOperation :=
  [⟨0, 3, "https://s3/u1"⟩, ⟨3, 2, "https://s3/u2"⟩]

/-- A concrete all-success transport for the chunked upload: the POST
answers with the delivery response, PUT and PATCH succeed. -/
def tr_up : Transport := fun req =>
  match req.method with
  | .post => .ok ⟨200, .jsonB delivery_json⟩
  | .put => .ok ⟨200, .rawB []⟩
  | .patch => .ok ⟨200, .rawB []⟩

/-- A concrete delivery response whose single operation asks for 100
bytes at offset 0, more than the ten byte file holds. -/
def short_delivery_json : Json :=
  .obj [("data", .obj [
    ("attributes", .obj [("uploadOperations", .arr [
      .obj [("offset", .num 0), ("length", .num 100), ("url", .str "https://s3/u")]])]),
    ("id", .str "D2")])]

/-- A concrete all-success transport answering with the over-long
operation. -/
def tr_short : Transport := fun req =>
  match req.method with
  | .post => .ok ⟨200, .jsonB short_delivery_json⟩
  | .put => .ok ⟨200, .rawB []⟩
  | .patch => .ok ⟨200, .rawB []⟩

set_option maxRecDepth 20000 in
/-- The RFC 1321 test vector: the MD5 digest of the empty input. -/
theorem md5Hex_empty_vector : md5Hex [] = "d41d8cd98f00b204e9800998ecf8427e" := by rfl

/-- C7: send_request returns Ok with the response exactly when the HTTP
status is a success (2xx, reqwest is_success); on every non-2xx status it
returns a structured error carrying the status and the response body (the
JSON document destined for pretty-printed diagnostic logging when the
body parses as JSON, the raw bytes otherwise), and the pipeline aborts:
a non-success delivery-creation response makes create_upload return that
error after the one request, issuing nothing further. -/
theorem send_request_success_iff (resp : Response) :
    (send_request (.ok resp) = .ok resp ↔ is_success resp.status = true) ∧
    (is_success resp.status = true ↔ 200 ≤ resp.status ∧ resp.status < 300) ∧
    (is_success resp.status = false →
      send_request (.ok resp) = .error (.appStoreConnectError resp.status resp.body)) ∧
    (∀ e : ConnError, send_request (.error e) = .error (.connection e)) ∧
    (∀ (tr : Transport) (token build_id file_name : String) (data : List Nat),
      tr (delivery_request token build_id file_name data) = .ok resp →
      is_success resp.status = false →
      create_upload tr token build_id file_name data =
        ([delivery_request token build_id file_name data],
         .error (.send (.appStoreConnectError resp.status resp.body)))) := by
  refine ⟨?_, ?_, ?_, ?_, ?_⟩
  · constructor
    · intro h
      by_contra hs
      simp only [Bool.not_eq_true] at hs
      simp [send_request, hs] at h
    · intro h
      simp [send_request, h]
  · simp [is_success]
  · intro h
    simp [send_request, h]
  · intro e
    rfl
  · intro tr token build_id file_name data htr h
    simp [create_upload, do_send, send_request, htr, h]

/-- C7 witness: a concrete 404 response with a raw body is rejected with
the structured error carrying the body. -/
theorem send_request_success_iff_witness :
    is_success 404 = false ∧
    send_request (.ok ⟨404, .rawB [110, 111]⟩) =
      .error (.appStoreConnectError 404 (.rawB [110, 111])) :=
  ⟨by decide, (send_request_success_iff ⟨404, .rawB [110, 111]⟩).2.2.1 (by decide)⟩

/-- C5: starting from an empty cache, a successful get_token call mints
exactly one token with the 300 second validity window, caches it, and a
second call returns the identical token value with no further signing
operation. -/
theorem get_token_caches (new_token : Nat → Except String String) (t : String)
    (h : new_token 300 = .ok t) :
    (get_token new_token none).result = .ok t ∧
    (get_token new_token none).cache = some t ∧
    (get_token new_token none).minted = [300] ∧
    (get_token new_token (get_token new_token none).cache).result = .ok t ∧
    (get_token new_token (get_token new_token none).cache).minted = [] := by
  simp [get_token, h]

/-- C5 witness: the caching behaviour evaluated at a concrete signer. -/
theorem get_token_caches_witness :
    sign_const 300 = .ok "token-1" ∧
    (get_token sign_const none).result = .ok "token-1" ∧
    (get_token sign_const none).cache = some "token-1" ∧
    (get_token sign_const none).minted = [300] ∧
    (get_token sign_const (get_token sign_const none).cache).result = .ok "token-1" ∧
    (get_token sign_const (get_token sign_const none).cache).minted = [] :=
  ⟨rfl, get_token_caches sign_const "token-1" rfl⟩

/-- C10: get_token is atomic on failure. A failing mint on an empty cache
propagates the error and leaves the cache empty; the next call against a
working signer mints again (new_token invoked with 300) and succeeds; and
in general the cache is only ever written with a token the signer
successfully minted (or the value it already held). -/
theorem get_token_error_atomic (bad good : Nat → Except String String) (e t : String)
    (hbad : bad 300 = .error e) (hgood : good 300 = .ok t) :
    (get_token bad none).result = .error e ∧
    (get_token bad none).cache = none ∧
    (get_token good (get_token bad none).cache).minted = [300] ∧
    (get_token good (get_token bad none).cache).result = .ok t ∧
    (∀ (s : Nat → Except String String) (c : Option String) (tok : String),
      (get_token s c).cache = some tok → c = some tok ∨ s 300 = .ok tok) := by
  refine ⟨by simp [get_token, hbad], by simp [get_token, hbad],
    by simp [get_token, hbad, hgood], by simp [get_token, hbad, hgood], ?_⟩
  intro s c tok h
  match c with
  | some c0 =>
      left
      simpa [get_token] using h
  | none =>
      right
      revert h
      match hs : s 300 with
      | .ok t0 => simp [get_token, hs]
      | .error e0 => simp [get_token, hs]

/-- C10 witness: failure atomicity evaluated at concrete signers. -/
theorem get_token_error_atomic_witness :
    sign_bad 300 = .error "bad key" ∧
    sign_const 300 = .ok "token-1" ∧
    (get_token sign_bad none).result = .error "bad key" ∧
    (get_token sign_bad none).cache = none ∧
    (get_token sign_const (get_token sign_bad none).cache).minted = [300] ∧
    (get_token sign_const (get_token sign_bad none).cache).result = .ok "token-1" :=
  ⟨rfl, rfl,
    (get_token_error_atomic sign_bad sign_const "bad key" "token-1" rfl rfl).1,
    (get_token_error_atomic sign_bad sign_const "bad key" "token-1" rfl rfl).2.1,
    (get_token_error_atomic sign_bad sign_const "bad key" "token-1" rfl rfl).2.2.1,
    (get_token_error_atomic sign_bad sign_const "bad key" "token-1" rfl rfl).2.2.2.1⟩

/-- C6 counterexample: the one legacy RPC call of the code,
lookup_software_for_bundle_id, attaches no per-request session digest at
all. At a concrete token and bundle id, the built request carries exactly
the bearer Authorization, Accept and Content-Type headers, and no
x-session-digest header name occurs. -/
theorem lookup_no_session_digest_cex :
    (lookup_request "tok" "com.example.app").headers =
      [("Authorization", "Bearer tok"),
       ("Accept", "application/json"),
       ("Content-Type", "application/json")] ∧
    "x-session-digest" ∉ (lookup_request "tok" "com.example.app").headers.map Prod.fst := by
  constructor
  · rfl
  · decide

/-- C6 amended: the legacy RPC call carries no session digest. For every
token and bundle id, the lookup request is authenticated solely by the
bearer token: its headers are exactly the bearer Authorization, Accept
and Content-Type triple, and no session id or session digest header is
attached. -/
theorem lookup_request_headers (token bundle_id : String) :
    (lookup_request token bundle_id).headers =
      [("Authorization", "Bearer " ++ token),
       ("Accept", "application/json"),
       ("Content-Type", "application/json")] ∧
    (∀ pr ∈ (lookup_request token bundle_id).headers,
      pr.1 ≠ "x-session-digest" ∧ pr.1 ≠ "x-session-id") := by
  refine ⟨rfl, ?_⟩
  intro pr hpr
  simp [lookup_request, std_headers] at hpr
  rcases hpr with h | h | h <;> subst h <;> exact ⟨by simp, by simp⟩

/-- C6 amended witness: the header characterization applied at a concrete
token and bundle id, giving that the Authorization header is not a
session digest header. -/
theorem lookup_request_headers_witness :
    ("Authorization", "Bearer tok") ∈ (lookup_request "tok" "b").headers ∧
    ("Authorization", "Bearer tok").1 ≠ "x-session-digest" :=
  ⟨by simp [lookup_request, std_headers],
   ((lookup_request_headers "tok" "b").2 ("Authorization", "Bearer tok")
     (by simp [lookup_request, std_headers])).1⟩

/-- Bind on Except reduces on ok. -/
theorem except_bind_ok {ε α β : Type} (a : α) (f : α → Except ε β) :
    (Except.ok a >>= f : Except ε β) = f a := rfl

/-- Bind on Except short-circuits on error. -/
theorem except_bind_error {ε α β : Type} (e : ε) (f : α → Except ε β) :
    (Except.error e >>= f : Except ε β) = .error e := rfl

/-- get_string succeeds exactly on a present string-valued key. -/
theorem get_string_ok_iff (d : List (String × Plist)) (k s : String) :
    get_string d k = .ok s ↔ d.lookup k = some (.string s) := by
  unfold get_string
  cases h : d.lookup k with
  | none => simp
  | some v => cases v <;> simp

/-- get_string either fails with invalidPlist or returns some string. -/
theorem get_string_cases (d : List (String × Plist)) (k : String) :
    get_string d k = .error .invalidPlist ∨ ∃ s, get_string d k = .ok s := by
  unfold get_string
  cases h : d.lookup k with
  | none => exact .inl rfl
  | some v =>
      cases v with
      | string s => exact .inr ⟨s, rfl⟩
      | dict e => exact .inl rfl
      | other => exact .inl rfl

/-- get_string fails when the key is absent or its value is not a string. -/
theorem get_string_fail (d : List (String × Plist)) (k : String)
    (h : ∀ s, d.lookup k ≠ some (.string s)) :
    get_string d k = .error .invalidPlist := by
  unfold get_string
  cases hl : d.lookup k with
  | none => rfl
  | some v =>
      cases v with
      | string s => exact absurd hl (h s)
      | dict e => rfl
      | other => rfl

/-- C4: when the archive holds a well-formed XML property list at the
derived path whose value is a dictionary, extraction returns exactly the
three string values under the three required keys; and when any one of
the three keys is missing or its value is not a string, extraction
returns the invalid-plist error, with no partial metadata. -/
theorem extract_app_data_spec (archive : String → Except ExtractErr Plist)
    (stem : String) (d : List (String × Plist))
    (harch : archive (plist_path stem) = .ok (.dict d)) :
    (∀ i v s : String,
      d.lookup "CFBundleIdentifier" = some (.string i) →
      d.lookup "CFBundleVersion" = some (.string v) →
      d.lookup "CFBundleShortVersionString" = some (.string s) →
      extract_app_data archive stem = .ok ⟨i, v, s⟩) ∧
    (((∀ s, d.lookup "CFBundleIdentifier" ≠ some (.string s)) ∨
      (∀ s, d.lookup "CFBundleVersion" ≠ some (.string s)) ∨
      (∀ s, d.lookup "CFBundleShortVersionString" ≠ some (.string s))) →
      extract_app_data archive stem = .error .invalidPlist) := by
  constructor
  · intro i v s h1 h2 h3
    have e1 : get_string d "CFBundleIdentifier" = .ok i := (get_string_ok_iff d _ i).2 h1
    have e2 : get_string d "CFBundleVersion" = .ok v := (get_string_ok_iff d _ v).2 h2
    have e3 : get_string d "CFBundleShortVersionString" = .ok s := (get_string_ok_iff d _ s).2 h3
    simp [extract_app_data, harch, e1, e2, e3, except_bind_ok, except_bind_error]
  · intro hbad
    rcases hbad with hk | hk | hk
    · have e1 := get_string_fail d _ hk
      simp [extract_app_data, harch, e1, except_bind_ok, except_bind_error]
    · have e2 := get_string_fail d _ hk
      rcases get_string_cases d "CFBundleIdentifier" with e1 | ⟨s1, e1⟩ <;>
        simp [extract_app_data, harch, e1, e2, except_bind_ok, except_bind_error]
    · have e3 := get_string_fail d _ hk
      rcases get_string_cases d "CFBundleIdentifier" with e1 | ⟨s1, e1⟩
      · simp [extract_app_data, harch, e1, except_bind_ok, except_bind_error]
      · rcases get_string_cases d "CFBundleVersion" with e2 | ⟨s2, e2⟩ <;>
          simp [extract_app_data, harch, e1, e2, e3, except_bind_ok, except_bind_error]

/-- C4 witness: extraction on the concrete demo archive returns exactly
the three embedded strings. -/
theorem extract_app_data_spec_witness :
    arch_demo (plist_path "Demo") = .ok (.dict demo_dict) ∧
    extract_app_data arch_demo "Demo" = .ok ⟨"com.example.demo", "42", "2.1"⟩ :=
  ⟨rfl, (extract_app_data_spec arch_demo "Demo" demo_dict rfl).1
    "com.example.demo" "42" "2.1" rfl rfl rfl⟩

/-- find? returns the first element satisfying the predicate: a split of
the list into a prefix of non-matching elements, the found element, and a
remainder. -/
theorem find_first_split {α : Type} (q : α → Bool) :
    ∀ (l : List α) (a : α), l.find? q = some a →
      q a = true ∧ ∃ pre rest, l = pre ++ a :: rest ∧ ∀ b ∈ pre, q b = false := by
  intro l
  induction l with
  | nil => intro a h; simp [List.find?] at h
  | cons x xs ih =>
      intro a h
      cases hx : q x with
      | true =>
          rw [List.find?_cons_of_pos _ hx] at h
          injection h with h
          subst h
          exact ⟨hx, [], xs, rfl, by simp⟩
      | false =>
          rw [List.find?_cons_of_neg _ (by simp [hx])] at h
          obtain ⟨hqa, pre, rest, heq, hpre⟩ := ih a h
          refine ⟨hqa, x :: pre, rest, by rw [heq]; rfl, ?_⟩
          intro b hb
          rcases List.mem_cons.1 hb with hb | hb
          · exact hb ▸ hx
          · exact hpre b hb

/-- C3: identity resolution in upload. Given a successful lookup
returning the candidate list, the selected entry is the first whose kind
field is exactly "iOS App" and whose software-type field is exactly
"Purple" (every earlier candidate fails the filter); when no candidate
matches, upload fails with the application-not-found error having issued
only the lookup request, and no build or delivery request is ever made;
when one matches, the build-creation request issued next carries exactly
the numeric application id of the selected entry. -/
theorem upload_resolves_first_match (p : PathM)
    (archive : String → Except ExtractErr Plist) (tr : Transport)
    (token : String) (data : List Nat) (stem : String) (app_data : AppData)
    (attrs : List Attribute)
    (hstem : path_stem p = .ok stem)
    (hex : extract_app_data archive stem = .ok app_data)
    (hlk : lookup_result tr token app_data.cf_bundle_identifier = .ok attrs) :
    (∀ a, attrs.find? attribute_matches = some a →
      attribute_matches a = true ∧
      ∃ pre rest, attrs = pre ++ a :: rest ∧ ∀ b ∈ pre, attribute_matches b = false) ∧
    (attrs.find? attribute_matches = none →
      upload p archive tr token data =
        .ok ([lookup_request token app_data.cf_bundle_identifier], .error .appNotFound)) ∧
    (∀ a, attrs.find? attribute_matches = some a →
      ∀ file_name, path_name p = .ok file_name →
      ∃ reqs res, upload p archive tr token data = .ok (reqs, res) ∧
        reqs[1]? = some (build_request token a.apple_id
          app_data.cf_bundle_version app_data.cf_bundle_short_version_string)) := by
  refine ⟨fun a h => find_first_split attribute_matches attrs a h, ?_, ?_⟩
  · intro hnone
    simp [upload, hstem, hex, lookup_software_for_bundle_id, hlk, hnone]
  · intro a hfind file_name hname
    cases hcb : create_build_result tr token a.apple_id
        app_data.cf_bundle_version app_data.cf_bundle_short_version_string with
    | error e =>
        refine ⟨[lookup_request token app_data.cf_bundle_identifier,
          build_request token a.apple_id app_data.cf_bundle_version
            app_data.cf_bundle_short_version_string], .error e, ?_, rfl⟩
        simp [upload, hstem, hex, lookup_software_for_bundle_id, hlk, hfind,
          create_build, hcb]
    | ok build_id =>
        refine ⟨[lookup_request token app_data.cf_bundle_identifier,
          build_request token a.apple_id app_data.cf_bundle_version
            app_data.cf_bundle_short_version_string] ++
          (create_upload tr token build_id file_name data).1,
          (create_upload tr token build_id file_name data).2, ?_, ?_⟩
        · simp [upload, hstem, hex, lookup_software_for_bundle_id, hlk, hfind,
            create_build, hcb, hname]
        · simp

/-- C3 witness: on the concrete candidate list the first matching entry
is the iOS App and Purple one with id 555, and the build request issued
second carries that id. -/
theorem upload_resolves_first_match_witness :
    path_stem p_demo = .ok "Demo" ∧
    extract_app_data arch_demo "Demo" = .ok ⟨"com.example.demo", "42", "2.1"⟩ ∧
    lookup_result tr_demo "tok" "com.example.demo" = .ok attrs_demo ∧
    attrs_demo.find? attribute_matches = some ⟨"555", "iOS App", "Purple"⟩ ∧
    path_name p_demo = .ok "Demo.ipa" ∧
    ∃ reqs res, upload p_demo arch_demo tr_demo "tok" [1, 2, 3] = .ok (reqs, res) ∧
      reqs[1]? = some (build_request "tok" "555" "42" "2.1") :=
  ⟨rfl, rfl, rfl, rfl, rfl,
    (upload_resolves_first_match p_demo arch_demo tr_demo "tok" [1, 2, 3]
      "Demo" ⟨"com.example.demo", "42", "2.1"⟩ attrs_demo rfl rfl rfl).2.2
      ⟨"555", "iOS App", "Purple"⟩ rfl "Demo.ipa" rfl⟩

/-- C9: the public upload entry point panics, rather than returning an
error value, on every path without a file-name component or with a
file name that is not valid UTF-8. A missing or non-UTF-8 file stem
makes the very first unwrap of extract_app_data panic before anything
else runs; and a file name whose UTF-8 reading fails panics at the
file-name unwrap of create_upload once the pipeline reaches it. -/
theorem upload_panics_on_bad_path (p : PathM)
    (archive : String → Except ExtractErr Plist) (tr : Transport)
    (token : String) (data : List Nat) :
    (p.file_stem = none → upload p archive tr token data = .panicked) ∧
    (∀ os, p.file_stem = some os → os.to_str = none →
      upload p archive tr token data = .panicked) ∧
    (∀ stem app_data attrs a build_id,
      path_stem p = .ok stem →
      extract_app_data archive stem = .ok app_data →
      lookup_result tr token app_data.cf_bundle_identifier = .ok attrs →
      attrs.find? attribute_matches = some a →
      create_build_result tr token a.apple_id app_data.cf_bundle_version
        app_data.cf_bundle_short_version_string = .ok build_id →
      path_name p = .panicked →
      upload p archive tr token data = .panicked) := by
  refine ⟨?_, ?_, ?_⟩
  · intro h
    simp [upload, path_stem, h]
  · intro os h1 h2
    simp [upload, path_stem, h1, h2]
  · intro stem app_data attrs a build_id hstem hex hlk hfind hcb hname
    simp [upload, hstem, hex, lookup_software_for_bundle_id, hlk, hfind,
      create_build, hcb, hname]

/-- C9 witness: upload panics on the concrete root path, and on the
concrete path with a non-UTF-8 file name it panics at the later
file-name unwrap after the pipeline reached build creation. -/
theorem upload_panics_on_bad_path_witness :
    p_root.file_stem = none ∧
    upload p_root arch_demo tr_demo "tok" [] = .panicked ∧
    path_name p_bad_name = .panicked ∧
    upload p_bad_name arch_demo tr_demo "tok" [] = .panicked :=
  ⟨rfl,
    (upload_panics_on_bad_path p_root arch_demo tr_demo "tok" []).1 rfl,
    rfl,
    (upload_panics_on_bad_path p_bad_name arch_demo tr_demo "tok" []).2.2
      "Demo" ⟨"com.example.demo", "42", "2.1"⟩ attrs_demo
      ⟨"555", "iOS App", "Purple"⟩ "998877" rfl rfl rfl rfl rfl rfl⟩

/-- A request that tests successful has an ok send result. -/
theorem reqOk_ok (tr : Transport) (req : Request) (h : reqOk tr req = true) :
    ∃ r, do_send tr req = .ok r := by
  unfold reqOk at h
  cases hs : do_send tr req with
  | ok r => exact ⟨r, rfl⟩
  | error e => rw [hs] at h; simp at h

/-- A request whose send result is an error tests unsuccessful. -/
theorem reqOk_error (tr : Transport) (req : Request) (e : Err)
    (h : do_send tr req = .error e) : reqOk tr req = false := by
  unfold reqOk
  rw [h]

/-- A request that tests unsuccessful has an error send result. -/
theorem reqOk_false_error (tr : Transport) (req : Request)
    (h : reqOk tr req = false) : ∃ e, do_send tr req = .error e := by
  unfold reqOk at h
  cases hs : do_send tr req with
  | ok r => rw [hs] at h; simp at h
  | error e => exact ⟨e, rfl⟩

/-- When every chunk transfer succeeds, the loop issues exactly one PUT
per operation, in the order received, and succeeds. -/
theorem upload_chunks_all_ok (tr : Transport) (data : List Nat) :
    ∀ ops : List UploadOperation,
      (∀ op ∈ ops, reqOk tr (chunk_request data op) = true) →
      upload_chunks tr data ops = (ops.map (chunk_request data), .ok ()) := by
  intro ops
  induction ops with
  | nil => intro _; rfl
  | cons op rest ih =>
      intro h
      obtain ⟨r, hr⟩ := reqOk_ok tr (chunk_request data op) (h op (by simp))
      simp [upload_chunks, hr, ih fun o ho => h o (by simp [ho])]

/-- When every operation before op succeeds and the transfer for op
fails, the loop issues the PUTs for the prefix and for op, in order, and
stops with exactly that error. -/
theorem upload_chunks_first_error (tr : Transport) (data : List Nat) :
    ∀ (pre : List UploadOperation) (op : UploadOperation)
      (rest : List UploadOperation) (e : Err),
      (∀ o ∈ pre, reqOk tr (chunk_request data o) = true) →
      do_send tr (chunk_request data op) = .error e →
      upload_chunks tr data (pre ++ op :: rest) =
        (pre.map (chunk_request data) ++ [chunk_request data op], .error e) := by
  intro pre
  induction pre with
  | nil => intro op rest e _ hop; simp [upload_chunks, hop]
  | cons x xs ih =>
      intro op rest e hpre hop
      obtain ⟨r, hr⟩ := reqOk_ok tr (chunk_request data x) (hpre x (by simp))
      simp [upload_chunks, hr, ih op rest e (fun o ho => hpre o (by simp [ho])) hop]

/-- Either every chunk transfer succeeds, or the operation sequence
splits at a first failing operation with an all-successful prefix. -/
theorem chunks_all_or_first_error (tr : Transport) (data : List Nat) :
    ∀ ops : List UploadOperation,
      (∀ op ∈ ops, reqOk tr (chunk_request data op) = true) ∨
      ∃ pre op rest e, ops = pre ++ op :: rest ∧
        (∀ o ∈ pre, reqOk tr (chunk_request data o) = true) ∧
        do_send tr (chunk_request data op) = .error e := by
  intro ops
  induction ops with
  | nil => left; simp
  | cons x xs ih =>
      cases hx : reqOk tr (chunk_request data x) with
      | false =>
          obtain ⟨e, he⟩ := reqOk_false_error tr (chunk_request data x) hx
          exact .inr ⟨[], x, xs, e, rfl, by simp, he⟩
      | true =>
          rcases ih with hall | ⟨pre, op, rest, e, heq, hpre, hop⟩
          · left
            intro op hop
            rcases List.mem_cons.1 hop with h | h
            · exact h ▸ hx
            · exact hall op h
          · refine .inr ⟨x :: pre, op, rest, e, by rw [heq]; rfl, ?_, hop⟩
            intro o ho
            rcases List.mem_cons.1 ho with h | h
            · exact h ▸ hx
            · exact hpre o h

/-- The finalize PATCH is not among a list of PUT requests. -/
theorem finalize_notin_puts (token id : String) (rs : List Request)
    (h : ∀ r ∈ rs, r.method = .put) : finalize_request token id ∉ rs := by
  intro hmem
  have hm := h _ hmem
  simp [finalize_request] at hm

/-- Every request in a mapped chunk list followed by one chunk request
is a PUT. -/
theorem chunk_list_methods (data : List Nat) (pre : List UploadOperation)
    (op : UploadOperation) :
    ∀ r ∈ pre.map (chunk_request data) ++ [chunk_request data op],
      r.method = .put := by
  intro r hr
  rcases List.mem_append.1 hr with h | h
  · obtain ⟨o, _, ho⟩ := List.mem_map.1 h
    rw [← ho]; rfl
  · rw [List.mem_singleton.1 h]; rfl

/-- C1: the finalize request (PATCH with uploaded true, addressed by the
delivery-file id) is issued exactly when every chunk transfer succeeded;
and whenever the operations split at a first failing transfer after an
all-successful prefix, create_upload returns exactly that error, its
request trace being the delivery creation followed by the PUTs up to and
including the failed one, with no finalize request in it. -/
theorem create_upload_finalize_iff (tr : Transport)
    (token build_id file_name : String) (data : List Nat) (resp0 : Response)
    (id : String) (ops : List UploadOperation)
    (h0 : do_send tr (delivery_request token build_id file_name data) = .ok resp0)
    (hd : delivery_decode resp0 = some (id, ops)) :
    ((finalize_request token id ∈ (create_upload tr token build_id file_name data).1) ↔
      (∀ op ∈ ops, reqOk tr (chunk_request data op) = true)) ∧
    (∀ pre op rest e, ops = pre ++ op :: rest →
      (∀ o ∈ pre, reqOk tr (chunk_request data o) = true) →
      do_send tr (chunk_request data op) = .error e →
      create_upload tr token build_id file_name data =
        (delivery_request token build_id file_name data ::
          (pre.map (chunk_request data) ++ [chunk_request data op]), .error e) ∧
      finalize_request token id ∉
        delivery_request token build_id file_name data ::
          (pre.map (chunk_request data) ++ [chunk_request data op])) := by
  have hfin_ne : finalize_request token id ≠ delivery_request token build_id file_name data := by
    intro h
    have := congrArg Request.method h
    simp [finalize_request, delivery_request] at this
  constructor
  · rcases chunks_all_or_first_error tr data ops with hall | ⟨pre, op, rest, e, heq, hpre, hop⟩
    · have hch := upload_chunks_all_ok tr data ops hall
      constructor
      · intro _; exact hall
      · intro _
        cases hsF : do_send tr (finalize_request token id) with
        | ok rF => simp [create_upload, h0, hd, hch, hsF]
        | error eF => simp [create_upload, h0, hd, hch, hsF]
    · subst heq
      have hch := upload_chunks_first_error tr data pre op rest e hpre hop
      constructor
      · intro hmem
        exfalso
        have htrace : create_upload tr token build_id file_name data =
            (delivery_request token build_id file_name data ::
              (pre.map (chunk_request data) ++ [chunk_request data op]), .error e) := by
          simp [create_upload, h0, hd, hch]
        rw [htrace] at hmem
        rcases List.mem_cons.1 hmem with h | h
        · exact hfin_ne h
        · exact finalize_notin_puts token id _ (chunk_list_methods data pre op) h
      · intro hall
        have := hall op (by simp)
        rw [reqOk_error tr _ e hop] at this
        simp at this
  · intro pre op rest e heq hpre hop
    subst heq
    have hch := upload_chunks_first_error tr data pre op rest e hpre hop
    constructor
    · simp [create_upload, h0, hd, hch]
    · intro hmem
      rcases List.mem_cons.1 hmem with h | h
      · exact hfin_ne h
      · exact finalize_notin_puts token id _ (chunk_list_methods data pre op) h

/-- C1 witness: the finalize-iff characterization applied on the
concrete all-success transport and a five byte file. -/
theorem create_upload_finalize_iff_witness :
    do_send tr_up (delivery_request "tok" "bid" "Demo.ipa" [10, 11, 12, 13, 14]) =
      .ok ⟨200, .jsonB delivery_json⟩ ∧
    delivery_decode ⟨200, .jsonB delivery_json⟩ = some ("D1", ops_demo) ∧
    ((finalize_request "tok" "D1" ∈
        (create_upload tr_up "tok" "bid" "Demo.ipa" [10, 11, 12, 13, 14]).1) ↔
      (∀ op ∈ ops_demo, reqOk tr_up (chunk_request [10, 11, 12, 13, 14] op) = true)) :=
  ⟨rfl, rfl,
    (create_upload_finalize_iff tr_up "tok" "bid" "Demo.ipa" [10, 11, 12, 13, 14]
      ⟨200, .jsonB delivery_json⟩ "D1" ops_demo rfl rfl).1⟩

/-- C2 counterexample: on a ten byte file with a server-assigned
operation of length 100 at offset 0, create_upload does not abort: it
transfers the ten available bytes as the PUT body (not 100) and
completes successfully through finalize. -/
theorem create_upload_short_read_cex :
    create_upload tr_short "tok" "bid" "Demo.ipa"
        [0, 1, 2, 3, 4, 5, 6, 7, 8, 9] =
      ([delivery_request "tok" "bid" "Demo.ipa" [0, 1, 2, 3, 4, 5, 6, 7, 8, 9],
        ⟨.put, "https://s3/u", [], .bytesBody [0, 1, 2, 3, 4, 5, 6, 7, 8, 9]⟩,
        finalize_request "tok" "D2"], .ok ()) ∧
    [0, 1, 2, 3, 4, 5, 6, 7, 8, 9].length = 10 ∧ (10 : Nat) ≠ 100 := by
  refine ⟨rfl, rfl, by decide⟩

/-- Whenever every operation before op transfers successfully, the PUT
for op itself is issued by the chunk loop (whatever its own outcome). -/
theorem chunk_request_issued (tr : Transport) (data : List Nat) :
    ∀ (pre : List UploadOperation) (op : UploadOperation)
      (rest : List UploadOperation),
      (∀ o ∈ pre, reqOk tr (chunk_request data o) = true) →
      chunk_request data op ∈ (upload_chunks tr data (pre ++ op :: rest)).1 := by
  intro pre
  induction pre with
  | nil =>
      intro op rest _
      cases hs : do_send tr (chunk_request data op) with
      | ok r => simp [upload_chunks, hs]
      | error e => simp [upload_chunks, hs]
  | cons x xs ih =>
      intro op rest hpre
      obtain ⟨r, hr⟩ := reqOk_ok tr (chunk_request data x) (hpre x (by simp))
      have h1 : (upload_chunks tr data ((x :: xs) ++ op :: rest)).1 =
          chunk_request data x :: (upload_chunks tr data (xs ++ op :: rest)).1 := by
        simp [upload_chunks, hr]
      rw [h1]
      exact List.mem_cons_of_mem _ (ih op rest fun o ho => hpre o (by simp [ho]))

/-- C2 amended: for every upload operation in the server-returned
sequence, the PUT issued for it targets exactly the operation
destination URL and carries as full body the bytes of the local file
from offset truncated at length: exactly the length bytes starting at
offset whenever offset plus length fits in the file, and only the
remaining bytes from offset when it does not (a short read does not
abort the upload; the shorter body is transferred). When every transfer
succeeds the full trace is the delivery creation, then one PUT per
operation in the order received, then the finalize request; and an
operation preceded by only successful transfers always has its PUT
issued. -/
theorem create_upload_chunk_bytes (tr : Transport)
    (token build_id file_name : String) (data : List Nat) (resp0 : Response)
    (id : String) (ops : List UploadOperation)
    (h0 : do_send tr (delivery_request token build_id file_name data) = .ok resp0)
    (hd : delivery_decode resp0 = some (id, ops)) :
    ((∀ op ∈ ops, reqOk tr (chunk_request data op) = true) →
      (create_upload tr token build_id file_name data).1 =
        delivery_request token build_id file_name data ::
          (ops.map (chunk_request data) ++ [finalize_request token id])) ∧
    (∀ op : UploadOperation,
      (chunk_request data op).url = op.url ∧
      (chunk_request data op).body =
        .bytesBody ((data.drop op.offset).take op.length) ∧
      (op.offset + op.length ≤ data.length →
        ((data.drop op.offset).take op.length).length = op.length) ∧
      (data.length < op.offset + op.length →
        ((data.drop op.offset).take op.length).length = data.length - op.offset)) ∧
    (∀ pre op rest, ops = pre ++ op :: rest →
      (∀ o ∈ pre, reqOk tr (chunk_request data o) = true) →
      chunk_request data op ∈ (create_upload tr token build_id file_name data).1) := by
  refine ⟨?_, ?_, ?_⟩
  · intro hall
    have hch := upload_chunks_all_ok tr data ops hall
    cases hsF : do_send tr (finalize_request token id) with
    | ok rF => simp [create_upload, h0, hd, hch, hsF]
    | error eF => simp [create_upload, h0, hd, hch, hsF]
  · intro op
    refine ⟨rfl, rfl, ?_, ?_⟩
    · intro hle
      simp only [List.length_take, List.length_drop]
      omega
    · intro hgt
      simp only [List.length_take, List.length_drop]
      omega
  · intro pre op rest heq hpre
    subst heq
    have hmem := chunk_request_issued tr data pre op rest hpre
    cases hc2 : (upload_chunks tr data (pre ++ op :: rest)).2 with
    | error e =>
        have ht : (create_upload tr token build_id file_name data).1 =
            delivery_request token build_id file_name data ::
              (upload_chunks tr data (pre ++ op :: rest)).1 := by
          simp [create_upload, h0, hd, hc2]
        rw [ht]
        exact List.mem_cons_of_mem _ hmem
    | ok u =>
        cases hsF : do_send tr (finalize_request token id) with
        | ok rF =>
            have ht : (create_upload tr token build_id file_name data).1 =
                delivery_request token build_id file_name data ::
                  ((upload_chunks tr data (pre ++ op :: rest)).1 ++
                    [finalize_request token id]) := by
              simp [create_upload, h0, hd, hc2, hsF]
            rw [ht]
            exact List.mem_cons_of_mem _ (List.mem_append_left _ hmem)
        | error eF =>
            have ht : (create_upload tr token build_id file_name data).1 =
                delivery_request token build_id file_name data ::
                  ((upload_chunks tr data (pre ++ op :: rest)).1 ++
                    [finalize_request token id]) := by
              simp [create_upload, h0, hd, hc2, hsF]
            rw [ht]
            exact List.mem_cons_of_mem _ (List.mem_append_left _ hmem)

/-- C2 amended witness: on the concrete all-success transport and the
five byte file, every transfer succeeds and the trace is the delivery
creation, the two PUTs in order, then the finalize request. -/
theorem create_upload_chunk_bytes_witness :
    do_send tr_up (delivery_request "tok" "bid" "Demo.ipa" [10, 11, 12, 13, 14]) =
      .ok ⟨200, .jsonB delivery_json⟩ ∧
    (∀ op ∈ ops_demo, reqOk tr_up (chunk_request [10, 11, 12, 13, 14] op) = true) ∧
    (create_upload tr_up "tok" "bid" "Demo.ipa" [10, 11, 12, 13, 14]).1 =
      delivery_request "tok" "bid" "Demo.ipa" [10, 11, 12, 13, 14] ::
        (ops_demo.map (chunk_request [10, 11, 12, 13, 14]) ++
          [finalize_request "tok" "D1"]) :=
  ⟨rfl, by decide,
    (create_upload_chunk_bytes tr_up "tok" "bid" "Demo.ipa" [10, 11, 12, 13, 14]
      ⟨200, .jsonB delivery_json⟩ "D1" ops_demo rfl rfl).1 (by decide)⟩

/-- The MD5 digest always has sixteen bytes. -/
theorem md5Bytes_length (data : List Nat) : (md5Bytes data).length = 16 := by
  unfold md5Bytes
  simp [toLE4]

/-- Hex rendering yields two characters per byte. -/
theorem flatMap_hexByte_length (bs : List Nat) :
    (bs.flatMap hexByte).length = 2 * bs.length := by
  induction bs with
  | nil => rfl
  | cons b rest ih =>
      simp only [List.flatMap_cons, List.length_append, ih, hexByte,
        List.length_cons, List.length_nil, List.length_singleton]
      omega

/-- Every rendered hex digit is one of the sixteen lowercase digits. -/
theorem hexDigit_mem (n : Nat) : hexDigit n ∈ hexChars := by
  unfold hexDigit
  have h : n % 16 < 16 := Nat.mod_lt _ (by norm_num)
  set m := n % 16 with hm
  interval_cases m <;> decide

/-- C8: for every transport, token, build id, file name and file
contents, the first request create_upload issues is the POST to the
buildDeliveryFiles endpoint whose body carries the fixed assetType
ASSET_DESCRIPTION and uti public.binary, the file name, fileSize equal
to the byte length of the contents, sourceFileChecksum equal to the
MD5 digest of the entire contents rendered lowercase hex (32 characters,
all lowercase hexadecimal digits), and the relationship to the given
build id. -/
theorem create_upload_delivery_fields (tr : Transport)
    (token build_id file_name : String) (data : List Nat) :
    (create_upload tr token build_id file_name data).1[0]? =
      some ⟨.post, DOMAIN ++ IRIS ++ "/buildDeliveryFiles", std_headers token,
        .jsonBody (.obj [("data", .obj [
          ("attributes", .obj [
            ("assetType", .str "ASSET_DESCRIPTION"),
            ("fileName", .str file_name),
            ("fileSize", .num data.length),
            ("sourceFileChecksum", .str (md5Hex data)),
            ("uti", .str "public.binary")]),
          ("relationships", .obj [
            ("build", .obj [
              ("data", .obj [("id", .str build_id), ("type", .str "builds")])])]),
          ("type", .str "buildDeliveryFiles")])])⟩ ∧
    (md5Hex data).length = 32 ∧
    (∀ c ∈ (md5Hex data).data, c ∈ hexChars) := by
  refine ⟨?_, ?_, ?_⟩
  · have hhead : (create_upload tr token build_id file_name data).1[0]? =
        some (delivery_request token build_id file_name data) := by
      cases hs : do_send tr (delivery_request token build_id file_name data) with
      | error e => simp [create_upload, hs]
      | ok resp =>
          cases hdd : delivery_decode resp with
          | none => simp [create_upload, hs, hdd]
          | some pr =>
              obtain ⟨id, ops⟩ := pr
              cases hc2 : (upload_chunks tr data ops).2 with
              | error e => simp [create_upload, hs, hdd, hc2]
              | ok u =>
                  cases hsF : do_send tr (finalize_request token id) with
                  | ok rF => simp [create_upload, hs, hdd, hc2, hsF]
                  | error eF => simp [create_upload, hs, hdd, hc2, hsF]
    exact hhead
  · have h1 : (md5Hex data).length = ((md5Bytes data).flatMap hexByte).length := rfl
    rw [h1, flatMap_hexByte_length, md5Bytes_length]
  · intro c hc
    have hc2 : c ∈ (md5Bytes data).flatMap hexByte := hc
    obtain ⟨b, _, hcb⟩ := List.mem_flatMap.1 hc2
    simp only [hexByte, List.mem_cons, List.not_mem_nil, or_false] at hcb
    rcases hcb with h | h <;> exact h ▸ hexDigit_mem _

set_option maxRecDepth 100000 in
/-- C8 witness: the delivery body of the concrete five byte file carries
its evaluated 32 character lowercase hex MD5 checksum and its length. -/
theorem create_upload_delivery_fields_witness :
    md5Hex [10, 11, 12, 13, 14] = "6fa37af248bda6ce8e89eb5033606c19" ∧
    (md5Hex [10, 11, 12, 13, 14]).length = 32 ∧
    (create_upload tr_up "tok" "bid" "Demo.ipa" [10, 11, 12, 13, 14]).1[0]? =
      some ⟨.post, DOMAIN ++ IRIS ++ "/buildDeliveryFiles", std_headers "tok",
        .jsonBody (.obj [("data", .obj [
          ("attributes", .obj [
            ("assetType", .str "ASSET_DESCRIPTION"),
            ("fileName", .str "Demo.ipa"),
            ("fileSize", .num 5),
            ("sourceFileChecksum", .str (md5Hex [10, 11, 12, 13, 14])),
            ("uti", .str "public.binary")]),
          ("relationships", .obj [
            ("build", .obj [
              ("data", .obj [("id", .str "bid"), ("type", .str "builds")])])]),
          ("type", .str "buildDeliveryFiles")])])⟩ :=
  ⟨by rfl,
    (create_upload_delivery_fields tr_up "tok" "bid" "Demo.ipa" [10, 11, 12, 13, 14]).2.1,
    (create_upload_delivery_fields tr_up "tok" "bid" "Demo.ipa" [10, 11, 12, 13, 14]).1⟩
